import Mathlib

/-!
Shallow embedding of the `LocalDevManager` class (local-development
synchronization engine) of hubspot-cms-tools, together with theorems
settling the frozen claims about it.

The embedded functions keep the source names: `notifyServers`,
`hasAnyUnsupportedStandbyChanges`, `addChangeToStandbyQueue`,
`sendChanges`, `flushStandbyChanges`, `debounceQueueBuild`,
`createNewStagingBuild`, `startWatching`, `handleWatchEvent`, `stop`,
`BUILD_DEBOUNCE_TIME`.  External collaborators (the build service
client, the status spinner sink, the path library, the ignore-rule and
extension predicates from cli-lib) are modelled at their boundary:
client calls are recorded in an output list, status updates are
recorded as strings, and the two filter predicates are function-valued
configuration fields so theorems can quantify over them.
-/

namespace LocalDev

/-- The four watcher event kinds of the WATCH_EVENTS table in the source
(chokidar events add, change, unlink, unlinkDir). -/
inductive WatchEvent
  | add
  | change
  | unlink
  | unlinkDir
deriving DecidableEq, Repr

/-- The change record built at the top of `handleWatchEvent`:
`{ event, filePath, remotePath: path.relative(projectSourceDir, filePath) }`. -/
structure ChangeInfo where
  event : WatchEvent
  filePath : String
  remotePath : String
deriving DecidableEq, Repr

/-- A standby-buffer entry: the spread of a ChangeInfo plus the
`supported` flag (`{ ...changeInfo, supported }` in the source). -/
structure StandbyChange where
  event : WatchEvent
  filePath : String
  remotePath : String
  supported : Bool
deriving DecidableEq, Repr

/-- Drop the `supported` flag: the ChangeInfo fields that
`sendChanges({ event, filePath, remotePath })` destructures from a
standby entry (the `supported` field is not read there). -/
def StandbyChange.toChangeInfo (c : StandbyChange) : ChangeInfo :=
  { event := c.event, filePath := c.filePath, remotePath := c.remotePath }

/-- Calls made against the build service client
(`@hubspot/cli-lib/api/dfs`), recorded as data. -/
inductive ClientCall
  | provisionBuild (accountId : Nat) (projectName : String)
  | cancelStagedBuild (accountId : Nat) (projectName : String)
  | uploadFileToBuild (accountId : Nat) (projectName : String)
      (filePath : String) (remotePath : String)
  | deleteFileFromBuild (accountId : Nat) (projectName : String)
      (remotePath : String)
  | queueBuild (accountId : Nat) (projectName : String)
deriving DecidableEq, Repr

/-- Count the provisionBuild calls in a recorded call list. -/
def countProvisionCalls (calls : List ClientCall) : Nat :=
  calls.countP fun c =>
    match c with
    | ClientCall.provisionBuild _ _ => true
    | _ => false

/-- Modelled from the spec: the EXIT_CODES enum
(`./enums/exitCodes`) is not under src/; the spec only requires that
every fatal path produces a distinct process exit code from success
paths, so the two codes are modelled as the distinct values 0 and 1. -/
def EXIT_CODES_SUCCESS : Nat := 0

/-- Modelled from the spec: the error member of the EXIT_CODES enum,
distinct from the success code. -/
def EXIT_CODES_ERROR : Nat := 1

/-- Constructor-provided configuration of a LocalDevManager, together
with the two pure filter predicates imported from cli-lib
(`isAllowedExtension`, `shouldIgnoreFile`) and the path-relativization
function, kept abstract as function fields because their bodies are
external to this repository.  `relativePath` stands for
`path.relative(projectSourceDir, ·)`. -/
structure Config where
  targetAccountId : Nat
  projectName : String
  preventUploads : Bool
  isAllowedExtension : String → Bool
  shouldIgnoreFile : String → Bool
  relativePath : String → String

/-- The mutable fields of a LocalDevManager instance that the claims
depend on.  `uploadQueuePaused` is `this.uploadQueue.isPaused`;
`debouncedBuild` stores the deadline (arm time + debounce window) of
the pending setTimeout handle, or none; `exited` is some exit code
once `process.exit` has run, after which no further code of the
process executes. -/
structure ManagerState where
  uploadQueuePaused : Bool
  standbyChanges : List StandbyChange
  debouncedBuild : Option Nat
  currentStagedBuildId : Option Nat
  exited : Option Nat
deriving DecidableEq, Repr

/-- The state after the constructor: queue running once started, empty
standby buffer, no pending debounce, no staged build, not exited. -/
def initialState : ManagerState :=
  { uploadQueuePaused := false
    standbyChanges := []
    debouncedBuild := none
    currentStagedBuildId := none
    exited := none }

/-- `notifyServers` is a stub in the source (`// TODO notify servers of
the change; return false;`): it always returns false. -/
def notifyServers (_changeInfo : ChangeInfo) : Bool :=
  false

/-- `hasAnyUnsupportedStandbyChanges`: true when some buffered entry
has `supported = false` (`this.standbyChanges.some(({supported}) => !supported)`). -/
def hasAnyUnsupportedStandbyChanges (s : ManagerState) : Bool :=
  s.standbyChanges.any fun c => !c.supported

/-- `addChangeToStandbyQueue`: for add/change events a disallowed
extension drops the change with a debug diagnostic; a path matching
the ignore rules is dropped with a diagnostic; otherwise the entry is
pushed onto the standby buffer. -/
def addChangeToStandbyQueue (cfg : Config) (s : ManagerState)
    (c : StandbyChange) : ManagerState :=
  if (c.event == WatchEvent.add || c.event == WatchEvent.change)
      && !cfg.isAllowedExtension c.filePath then
    s
  else if cfg.shouldIgnoreFile c.filePath then
    s
  else
    { s with standbyChanges := s.standbyChanges ++ [c] }

/-- Outcome of one build-service upload/delete call as observed by its
JavaScript caller: the call may succeed, may throw synchronously
before a promise is returned, or may return a promise that later
rejects. -/
inductive CallOutcome
  | ok
  | syncThrow
  | asyncReject
deriving DecidableEq, Repr

/-- Settlement of the promise produced by one upload-queue task. -/
inductive TaskResult
  | resolved
  | rejected
deriving DecidableEq, Repr

/-- `sendChanges({event, filePath, remotePath})`: add/change events call
`uploadFileToBuild`, unlink/unlinkDir events call
`deleteFileFromBuild`.  The body wraps the calls in try/catch, but it
does `return uploadFileToBuild(...)` (resp. delete) with no `await`
inside the try: a synchronous throw is caught and logged via
`logger.debug`, while an asynchronous rejection of the returned
promise is not caught by this try/catch and rejects the promise
`sendChanges` returns.  The function returns the attempted client call
and the settlement of its promise. -/
def sendChanges (cfg : Config) (c : ChangeInfo) (outcome : CallOutcome) :
    List ClientCall × TaskResult :=
  let call : ClientCall :=
    match c.event with
    | WatchEvent.add =>
        ClientCall.uploadFileToBuild cfg.targetAccountId cfg.projectName
          c.filePath c.remotePath
    | WatchEvent.change =>
        ClientCall.uploadFileToBuild cfg.targetAccountId cfg.projectName
          c.filePath c.remotePath
    | WatchEvent.unlink =>
        ClientCall.deleteFileFromBuild cfg.targetAccountId cfg.projectName
          c.remotePath
    | WatchEvent.unlinkDir =>
        ClientCall.deleteFileFromBuild cfg.targetAccountId cfg.projectName
          c.remotePath
  match outcome with
  | CallOutcome.ok => ([call], TaskResult.resolved)
  | CallOutcome.syncThrow => ([call], TaskResult.resolved)
  | CallOutcome.asyncReject => ([call], TaskResult.rejected)

/-- `flushStandbyChanges`: when the buffer is non-empty, one
upload-queue task is added per buffered entry via
`uploadQueue.addAll(this.standbyChanges.map(...))`, in buffer order,
and the buffer is then cleared.  The task built for an entry calls
`sendChanges(changeInfo)` on the full entry unconditionally: the
`supported` flag is not consulted anywhere in this function.  When the
buffer is empty the function does nothing.  Returns the new state and
the list of entries for which a task was submitted. -/
def flushStandbyChanges (s : ManagerState) :
    ManagerState × List StandbyChange :=
  if s.standbyChanges.isEmpty then
    (s, [])
  else
    ({ s with standbyChanges := [] }, s.standbyChanges)

/-- `BUILD_DEBOUNCE_TIME = 2000` (milliseconds). -/
def BUILD_DEBOUNCE_TIME : Nat := 2000

/-- State effect of `debounceQueueBuild` called at time `now`: the
status is set to dirty, `clearTimeout` cancels any stored timer handle
and a fresh `setTimeout` handle with deadline `now +
BUILD_DEBOUNCE_TIME` replaces it in the single `this.debouncedBuild`
slot (cancel-and-replace). -/
def debounceQueueBuild (now : Nat) (s : ManagerState) : ManagerState :=
  { s with debouncedBuild := some (now + BUILD_DEBOUNCE_TIME) }

/-- Deadlines at which a debounce callback actually runs, computed from
the ascending list of times at which `debounceQueueBuild` was called.
By the setTimeout/clearTimeout semantics of the cancel-and-replace in
the source, the timer armed at time `t` fires at `t +
BUILD_DEBOUNCE_TIME` unless the next arming happens strictly before
that deadline, in which case `clearTimeout` cancels it; the most
recently armed timer always fires (nothing later cancels it). -/
def firedDebounceTimers : List Nat → List Nat
  | [] => []
  | [t] => [t + BUILD_DEBOUNCE_TIME]
  | t :: t2 :: rest =>
      (if t + BUILD_DEBOUNCE_TIME ≤ t2 then [t + BUILD_DEBOUNCE_TIME] else [])
        ++ firedDebounceTimers (t2 :: rest)

/-- Result of one `provisionBuild` call: success with a build id,
failure whose error matches `ERROR_TYPES.PROJECT_LOCKED`, or any other
failure. -/
inductive ProvisionResult
  | ok (buildId : Nat)
  | errProjectLocked
  | errOther
deriving DecidableEq, Repr

/-- `createNewStagingBuild`: calls `provisionBuild` and on success
stores the returned buildId in `currentStagedBuildId`.  On failure the
error is logged at debug level; if it matches PROJECT_LOCKED,
`cancelStagedBuild` is awaited (modelled as succeeding — its own
rejection would propagate out of the catch block, a path no claim
touches) and a cancellation message is logged.  Every failure path
then reaches `process.exit(EXIT_CODES.ERROR)`: provisioning is never
retried inside this function. -/
def createNewStagingBuild (cfg : Config) (s : ManagerState)
    (r : ProvisionResult) : ManagerState × List ClientCall :=
  match r with
  | ProvisionResult.ok buildId =>
      ({ s with currentStagedBuildId := some buildId },
        [ClientCall.provisionBuild cfg.targetAccountId cfg.projectName])
  | ProvisionResult.errProjectLocked =>
      ({ s with exited := some EXIT_CODES_ERROR },
        [ClientCall.provisionBuild cfg.targetAccountId cfg.projectName,
         ClientCall.cancelStagedBuild cfg.targetAccountId cfg.projectName])
  | ProvisionResult.errOther =>
      ({ s with exited := some EXIT_CODES_ERROR },
        [ClientCall.provisionBuild cfg.targetAccountId cfg.projectName])

/-- The build-provisioning part of `startWatching`: `if
(!this.preventUploads) { await this.createNewStagingBuild(); }`.  The
watcher `on(...)` registrations that follow route events to
`handleWatchEvent` and are modelled by feeding events to that
function. -/
def startWatching (cfg : Config) (s : ManagerState) (r : ProvisionResult) :
    ManagerState × List ClientCall :=
  if cfg.preventUploads then (s, []) else createNewStagingBuild cfg s r

/-- What one `handleWatchEvent` call produced: the new manager state,
the tasks added to the upload queue in submission order (each task,
when executed, runs `sendChanges` on its ChangeInfo), and the status
updates sent to the spinner sink. -/
structure HandleResult where
  state : ManagerState
  queued : List ChangeInfo
  statuses : List String
deriving Repr

/-- `handleWatchEvent(filePath, event)` at time `now`.  It builds the
ChangeInfo, asks `notifyServers` (the stub) whether the change is
supported; a supported change only updates the status and is put on
the standby buffer with `supported = true`.  Under `preventUploads`
the handler reports the upload-prevented status and a per-path warning
and returns without touching queue or buffer.  When the upload queue
is paused, the change is appended to the standby buffer with
`supported = false` unless some buffered entry already has the same
filePath, in which case nothing is done.  Otherwise (queue running)
the standby buffer is flushed, the debounce timer is re-armed when the
queue is still unpaused, and one task for this change is added to the
upload queue. -/
def handleWatchEvent (cfg : Config) (now : Nat) (s : ManagerState)
    (filePath : String) (event : WatchEvent) : HandleResult :=
  let changeInfo : ChangeInfo :=
    { event := event, filePath := filePath
      remotePath := cfg.relativePath filePath }
  let isSupportedChange := notifyServers changeInfo
  if isSupportedChange then
    { state := addChangeToStandbyQueue cfg s
        { event := event, filePath := filePath
          remotePath := changeInfo.remotePath, supported := true }
      queued := []
      statuses := ["supportedChange"] }
  else if cfg.preventUploads then
    { state := s
      queued := []
      statuses := ["uploadPrevented", "uploadPreventedWarning"] }
  else if s.uploadQueuePaused then
    if s.standbyChanges.any (fun c => c.filePath == filePath) then
      { state := s, queued := [], statuses := [] }
    else
      { state := addChangeToStandbyQueue cfg s
          { event := event, filePath := filePath
            remotePath := changeInfo.remotePath, supported := false }
        queued := []
        statuses := [] }
  else
    let flushed := flushStandbyChanges s
    let s2 :=
      if flushed.1.uploadQueuePaused then flushed.1
      else debounceQueueBuild now flushed.1
    { state := s2
      queued := flushed.2.map StandbyChange.toChangeInfo ++ [changeInfo]
      statuses := ["dirty"] }

/-- Fold `handleWatchEvent` over a timed sequence of watcher events,
accumulating the upload-queue submissions in order. -/
def processEvents (cfg : Config) :
    ManagerState → List (Nat × String × WatchEvent) →
      ManagerState × List ChangeInfo
  | s, [] => (s, [])
  | s, (now, fp, ev) :: rest =>
      let r := handleWatchEvent cfg now s fp ev
      let tail := processEvents cfg r.state rest
      (tail.1, r.queued ++ tail.2)

/-- Result of the `cancelStagedBuild` call made during `stop`: success,
a failure matching `ERROR_TYPES.BUILD_NOT_IN_PROGRESS`, or any other
failure. -/
inductive CancelResult
  | ok
  | errBuildNotInProgress
  | errOther
deriving DecidableEq, Repr

/-- `stop()`: after closing the watcher and cleaning up servers, the
exit code starts as SUCCESS; when a staged build is current,
`cancelStagedBuild` is called and a failure not matching
BUILD_NOT_IN_PROGRESS is reported and turns the exit code to ERROR
(a BUILD_NOT_IN_PROGRESS failure is swallowed).  The method always
ends in `process.exit(exitCode)`.  A stop invoked on a state whose
process has already exited models code after process termination:
process.exit ended the process, so nothing executes and no call is
made. -/
def stop (cfg : Config) (s : ManagerState) (r : CancelResult) :
    ManagerState × List ClientCall :=
  if s.exited.isSome then
    (s, [])
  else
    match s.currentStagedBuildId with
    | none => ({ s with exited := some EXIT_CODES_SUCCESS }, [])
    | some _ =>
        match r with
        | CancelResult.ok =>
            ({ s with exited := some EXIT_CODES_SUCCESS },
              [ClientCall.cancelStagedBuild cfg.targetAccountId
                cfg.projectName])
        | CancelResult.errBuildNotInProgress =>
            ({ s with exited := some EXIT_CODES_SUCCESS },
              [ClientCall.cancelStagedBuild cfg.targetAccountId
                cfg.projectName])
        | CancelResult.errOther =>
            ({ s with exited := some EXIT_CODES_ERROR },
              [ClientCall.cancelStagedBuild cfg.targetAccountId
                cfg.projectName])

/-- A concrete configuration used by witnesses and counterexamples:
uploads not prevented, every extension allowed, nothing ignored. -/
def sampleConfig : Config :=
  { targetAccountId := 123
    projectName := "proj"
    preventUploads := false
    isAllowedExtension := fun _ => true
    shouldIgnoreFile := fun _ => false
    relativePath := fun p => p }

/-- The sample configuration with uploads prevented. -/
def preventConfig : Config :=
  { sampleConfig with preventUploads := true }

/-- The sample configuration with every extension disallowed. -/
def noExtAllowedConfig : Config :=
  { sampleConfig with isAllowedExtension := fun _ => false }

/-- A concrete paused state holding one buffered change for a.html. -/
def pausedStateWithA : ManagerState :=
  { uploadQueuePaused := true
    standbyChanges :=
      [{ event := WatchEvent.add, filePath := "a.html"
         remotePath := "a.html", supported := false }]
    debouncedBuild := none
    currentStagedBuildId := some 7
    exited := none }

/-- A concrete standby entry carrying supported = true. -/
def supportedEntry : StandbyChange :=
  { event := WatchEvent.add, filePath := "b.css"
    remotePath := "b.css", supported := true }

/-- A paused state whose only buffered entry is marked supported. -/
def bufferWithSupported : ManagerState :=
  { initialState with
      uploadQueuePaused := true
      standbyChanges := [supportedEntry] }

/-- A state with a current staged build and the process still running. -/
def runningWithBuild : ManagerState :=
  { initialState with currentStagedBuildId := some 42 }

/-- A concrete add change used when exercising sendChanges. -/
def sampleUpload : ChangeInfo :=
  { event := WatchEvent.add, filePath := "a.html", remotePath := "a.html" }

theorem flushStandbyChanges_paused_eq (s : ManagerState) :
    (flushStandbyChanges s).1.uploadQueuePaused = s.uploadQueuePaused := by
  unfold flushStandbyChanges
  split <;> rfl

theorem flushStandbyChanges_clears (s : ManagerState) :
    (flushStandbyChanges s).1.standbyChanges = [] := by
  unfold flushStandbyChanges
  split
  · next hemp => simpa using hemp
  · rfl

theorem handleWatchEvent_prevented (cfg : Config) (now : Nat)
    (s : ManagerState) (fp : String) (ev : WatchEvent)
    (h : cfg.preventUploads = true) :
    handleWatchEvent cfg now s fp ev =
      { state := s, queued := []
        statuses := ["uploadPrevented", "uploadPreventedWarning"] } := by
  simp [handleWatchEvent, notifyServers, h]

theorem handleWatchEvent_paused_dup (cfg : Config) (now : Nat)
    (s : ManagerState) (fp : String) (ev : WatchEvent)
    (hprev : cfg.preventUploads = false)
    (hpause : s.uploadQueuePaused = true)
    (hdup : (s.standbyChanges.any fun c => c.filePath == fp) = true) :
    handleWatchEvent cfg now s fp ev =
      { state := s, queued := [], statuses := [] } := by
  simp [handleWatchEvent, notifyServers, hprev, hpause, hdup]

theorem handleWatchEvent_paused_new (cfg : Config) (now : Nat)
    (s : ManagerState) (fp : String) (ev : WatchEvent)
    (hprev : cfg.preventUploads = false)
    (hpause : s.uploadQueuePaused = true)
    (hdup : (s.standbyChanges.any fun c => c.filePath == fp) = false) :
    handleWatchEvent cfg now s fp ev =
      { state := addChangeToStandbyQueue cfg s
          { event := ev, filePath := fp
            remotePath := cfg.relativePath fp, supported := false }
        queued := [], statuses := [] } := by
  simp [handleWatchEvent, notifyServers, hprev, hpause, hdup]

theorem handleWatchEvent_running (cfg : Config) (now : Nat)
    (s : ManagerState) (fp : String) (ev : WatchEvent)
    (hprev : cfg.preventUploads = false)
    (hpause : s.uploadQueuePaused = false) :
    handleWatchEvent cfg now s fp ev =
      { state := debounceQueueBuild now (flushStandbyChanges s).1
        queued := (flushStandbyChanges s).2.map StandbyChange.toChangeInfo
          ++ [{ event := ev, filePath := fp
                remotePath := cfg.relativePath fp }]
        statuses := ["dirty"] } := by
  simp [handleWatchEvent, notifyServers, hprev, hpause,
    flushStandbyChanges_paused_eq]

theorem firedDebounceTimers_chain :
    ∀ (ts : List Nat) (l : Nat), ts.getLast? = some l →
      List.Chain' (fun a b => b < a + BUILD_DEBOUNCE_TIME) ts →
      firedDebounceTimers ts = [l + BUILD_DEBOUNCE_TIME]
  | [], _, hl, _ => by simp at hl
  | [t], l, hl, _ => by
      simp only [List.getLast?_singleton, Option.some.injEq] at hl
      rw [← hl]
      rfl
  | t :: t2 :: rest, l, hl, h2 => by
      have hc := List.chain'_cons.mp h2
      have hl2 : (t2 :: rest).getLast? = some l := by
        rw [List.getLast?_cons_cons] at hl
        exact hl
      have ih := firedDebounceTimers_chain (t2 :: rest) l hl2 hc.2
      have hlt : ¬ t + BUILD_DEBOUNCE_TIME ≤ t2 := Nat.not_le.mpr hc.1
      simp only [firedDebounceTimers, if_neg hlt, List.nil_append, ih]

/-- C6: the orchestrator holds its debounce timer in the single
debouncedBuild slot, arming cancels and replaces any stored timer and
schedules the callback exactly BUILD_DEBOUNCE_TIME = 2000 ms later,
and K re-armings each arriving before the previous deadline produce
exactly one fired callback, at the last arm time plus the window. -/
theorem debounce_timer_single_trigger (now : Nat) (s : ManagerState)
    (ts : List Nat) (l : Nat) (h1 : ts.getLast? = some l)
    (h2 : List.Chain' (fun a b => b < a + BUILD_DEBOUNCE_TIME) ts) :
    BUILD_DEBOUNCE_TIME = 2000 ∧
    (debounceQueueBuild now s).debouncedBuild =
      some (now + BUILD_DEBOUNCE_TIME) ∧
    firedDebounceTimers ts = [l + BUILD_DEBOUNCE_TIME] :=
  ⟨rfl, rfl, firedDebounceTimers_chain ts l h1 h2⟩

/-- C6 witness: three re-arms at 0, 500, 1000 ms (each within the
previous 2000 ms window) fire exactly once, at 3000 ms. -/
theorem debounce_timer_single_trigger_witness :
    firedDebounceTimers [0, 500, 1000] = [1000 + BUILD_DEBOUNCE_TIME] :=
  (debounce_timer_single_trigger 0 initialState [0, 500, 1000] 1000
    (by simp) (by simp [BUILD_DEBOUNCE_TIME])).2.2

/-- C8: during stop with a staged build current, a cancelStagedBuild
failure matching BUILD_NOT_IN_PROGRESS is swallowed and the process
exits with the success code, while any other cancel failure is
reported and the process exits with the error code; in both cases
exactly one cancel call is made. -/
theorem stop_buildNotInProgress_is_success (cfg : Config)
    (s : ManagerState) (b : Nat) (hex : s.exited = none)
    (hb : s.currentStagedBuildId = some b) :
    ((stop cfg s CancelResult.errBuildNotInProgress).1.exited =
        some EXIT_CODES_SUCCESS ∧
      (stop cfg s CancelResult.errBuildNotInProgress).2 =
        [ClientCall.cancelStagedBuild cfg.targetAccountId
          cfg.projectName]) ∧
    ((stop cfg s CancelResult.errOther).1.exited =
        some EXIT_CODES_ERROR ∧
      (stop cfg s CancelResult.errOther).2 =
        [ClientCall.cancelStagedBuild cfg.targetAccountId
          cfg.projectName]) := by
  simp [stop, hex, hb]

/-- C8 witness: the concrete running state with staged build 42. -/
theorem stop_buildNotInProgress_is_success_witness :
    (stop sampleConfig runningWithBuild
        CancelResult.errBuildNotInProgress).1.exited =
      some EXIT_CODES_SUCCESS :=
  (stop_buildNotInProgress_is_success sampleConfig runningWithBuild 42
    rfl rfl).1.1

/-- C9: stop is idempotent: every stop call leaves the process exited,
and a stop call on an exited state (the only way a second call can be
reached, since the first ended in process.exit) makes no
cancelStagedBuild call and does not change the exit state. -/
theorem stop_idempotent (cfg : Config) (s : ManagerState)
    (r r2 : CancelResult) :
    stop cfg (stop cfg s r).1 r2 = ((stop cfg s r).1, []) := by
  by_cases h : s.exited.isSome
  · simp [stop, h]
  · simp only [Bool.not_eq_true] at h
    cases hb : s.currentStagedBuildId <;> cases r <;>
      simp [stop, h, hb]

/-- C10: notifyServers is a stub returning false, so the
supported-change branch of handleWatchEvent is unreachable: starting
from any state whose buffered entries all have supported = false (as
the initial empty buffer does), handling any event preserves that
invariant, and hasAnyUnsupportedStandbyChanges is true exactly when
the standby buffer is non-empty. -/
theorem notifyServers_stub_no_supported_changes (cfg : Config)
    (s : ManagerState)
    (h : ∀ c ∈ s.standbyChanges, c.supported = false) :
    (∀ ci, notifyServers ci = false) ∧
    (∀ now fp ev,
      ∀ c ∈ (handleWatchEvent cfg now s fp ev).state.standbyChanges,
        c.supported = false) ∧
    hasAnyUnsupportedStandbyChanges s = !s.standbyChanges.isEmpty := by
  refine ⟨fun _ => rfl, ?_, ?_⟩
  · intro now fp ev c hc
    by_cases hprev : cfg.preventUploads
    · rw [handleWatchEvent_prevented cfg now s fp ev hprev] at hc
      exact h c hc
    · rw [Bool.not_eq_true] at hprev
      by_cases hpause : s.uploadQueuePaused
      · by_cases hdup : (s.standbyChanges.any fun c => c.filePath == fp) = true
        · rw [handleWatchEvent_paused_dup cfg now s fp ev hprev hpause hdup]
            at hc
          exact h c hc
        · rw [Bool.not_eq_true] at hdup
          rw [handleWatchEvent_paused_new cfg now s fp ev hprev hpause hdup]
            at hc
          unfold addChangeToStandbyQueue at hc
          split at hc
          · exact h c hc
          · split at hc
            · exact h c hc
            · simp only [List.mem_append, List.mem_singleton] at hc
              rcases hc with hc | hc
              · exact h c hc
              · rw [hc]
      · rw [Bool.not_eq_true] at hpause
        rw [handleWatchEvent_running cfg now s fp ev hprev hpause] at hc
        simp only [debounceQueueBuild] at hc
        rw [flushStandbyChanges_clears] at hc
        simp at hc
  · cases hsc : s.standbyChanges with
    | nil => simp [hasAnyUnsupportedStandbyChanges, hsc]
    | cons a tl =>
        have ha : a.supported = false := h a (by simp [hsc])
        simp [hasAnyUnsupportedStandbyChanges, hsc, ha]

/-- C10 witness: the invariant instantiated at the initial state. -/
theorem notifyServers_stub_no_supported_changes_witness :
    hasAnyUnsupportedStandbyChanges initialState =
      !initialState.standbyChanges.isEmpty :=
  (notifyServers_stub_no_supported_changes sampleConfig initialState
    (by intro c hc; simp [initialState] at hc)).2.2

/-- C5: with preventUploads configured, startWatching makes no client
call (provisionBuild is skipped), and every watcher event only emits
the upload-prevented status updates, leaves the manager state
unchanged — in particular the debounce timer, whose callback is the
only other provisionBuild site, is never armed — and submits nothing
to the upload queue; folding any event sequence therefore yields no
queue submissions at all and the unchanged state. -/
theorem preventUploads_no_provision_no_queue (cfg : Config)
    (h : cfg.preventUploads = true) :
    (∀ s r, (startWatching cfg s r).2 = []) ∧
    (∀ now s fp ev,
        handleWatchEvent cfg now s fp ev =
          { state := s, queued := []
            statuses := ["uploadPrevented", "uploadPreventedWarning"] }) ∧
    (∀ s evs, processEvents cfg s evs = (s, [])) := by
  refine ⟨?_, ?_, ?_⟩
  · intro s r
    simp [startWatching, h]
  · intro now s fp ev
    exact handleWatchEvent_prevented cfg now s fp ev h
  · intro s evs
    induction evs generalizing s with
    | nil => rfl
    | cons e rest ih =>
        obtain ⟨now, fp, ev⟩ := e
        simp [processEvents,
          handleWatchEvent_prevented cfg now s fp ev h, ih]

/-- C5 witness: a concrete two-event run under preventUploads produces
no queue submissions and leaves the state unchanged. -/
theorem preventUploads_no_provision_no_queue_witness :
    processEvents preventConfig initialState
      [(0, "a.html", WatchEvent.add), (500, "b.css", WatchEvent.change)] =
      (initialState, []) :=
  (preventUploads_no_provision_no_queue preventConfig rfl).2.2
    initialState
    [(0, "a.html", WatchEvent.add), (500, "b.css", WatchEvent.change)]

/-- C1 counterexample: a second accepted change event for a.html,
arriving while the upload queue is paused and a.html is already
buffered, is silently dropped: handleWatchEvent leaves the state
unchanged (no buffer append), queues nothing and emits no status, so
this accepted event can never reach an upload-or-delete call. -/
theorem second_event_same_path_while_paused_dropped :
    handleWatchEvent sampleConfig 0 pausedStateWithA "a.html"
        WatchEvent.change =
      { state := pausedStateWithA, queued := [], statuses := [] } :=
  handleWatchEvent_paused_dup sampleConfig 0 pausedStateWithA "a.html"
    WatchEvent.change rfl rfl (by decide)

/-- C1 amended: dispatch accounting for an accepted event (the
notifyServers stub is false and uploads are not prevented).  Queue
running: handleWatchEvent flushes the standby buffer and queues one
task per flushed entry plus exactly one task for this event, and
leaves the buffer empty.  Queue paused with no buffered entry for the
path: an eligible event is appended exactly once to the standby
buffer.  Queue paused with an entry already buffered for the same
path: the event is silently dropped — state unchanged, nothing
queued. -/
theorem accepted_event_dispatched_once (cfg : Config) (now : Nat)
    (s : ManagerState) (fp : String) (ev : WatchEvent)
    (hprev : cfg.preventUploads = false) :
    (s.uploadQueuePaused = false →
        (handleWatchEvent cfg now s fp ev).queued =
          (flushStandbyChanges s).2.map StandbyChange.toChangeInfo ++
            [{ event := ev, filePath := fp
               remotePath := cfg.relativePath fp }] ∧
        (handleWatchEvent cfg now s fp ev).state.standbyChanges = []) ∧
    (s.uploadQueuePaused = true →
      (s.standbyChanges.any fun c => c.filePath == fp) = false →
      ((ev == WatchEvent.add || ev == WatchEvent.change)
          && !cfg.isAllowedExtension fp) = false →
      cfg.shouldIgnoreFile fp = false →
        (handleWatchEvent cfg now s fp ev).state.standbyChanges =
          s.standbyChanges ++
            [{ event := ev, filePath := fp
               remotePath := cfg.relativePath fp, supported := false }]) ∧
    (s.uploadQueuePaused = true →
      (s.standbyChanges.any fun c => c.filePath == fp) = true →
        (handleWatchEvent cfg now s fp ev).state = s ∧
        (handleWatchEvent cfg now s fp ev).queued = []) := by
  refine ⟨?_, ?_, ?_⟩
  · intro hpause
    rw [handleWatchEvent_running cfg now s fp ev hprev hpause]
    refine ⟨rfl, ?_⟩
    simp [debounceQueueBuild, flushStandbyChanges_clears]
  · intro hpause hdup hext hign
    rw [handleWatchEvent_paused_new cfg now s fp ev hprev hpause hdup]
    simp [addChangeToStandbyQueue, hext, hign]
  · intro hpause hdup
    rw [handleWatchEvent_paused_dup cfg now s fp ev hprev hpause hdup]
    exact ⟨rfl, rfl⟩

/-- C1 amended witness: an accepted add event at the initial running
state leaves the standby buffer empty after dispatch. -/
theorem accepted_event_dispatched_once_witness :
    (handleWatchEvent sampleConfig 0 initialState "a.html"
        WatchEvent.add).state.standbyChanges = [] :=
  ((accepted_event_dispatched_once sampleConfig 0 initialState "a.html"
      WatchEvent.add rfl).1 rfl).2

/-- C2 counterexample: a PROJECT_LOCKED provision failure at the
initial state cancels the stale build and then exits with the error
code, having called provisionBuild exactly once: there is no second
provision attempt after the successful cancel. -/
theorem provision_locked_exits_without_retry :
    (createNewStagingBuild sampleConfig initialState
        ProvisionResult.errProjectLocked).1.exited =
      some EXIT_CODES_ERROR ∧
    countProvisionCalls
      (createNewStagingBuild sampleConfig initialState
        ProvisionResult.errProjectLocked).2 = 1 := ⟨rfl, rfl⟩

/-- C2 amended: when provisionBuild fails with the project-locked
signal, createNewStagingBuild cancels the stale remote build and then
exits the process with the error code without retrying provisioning —
exactly one provisionBuild call, followed by one cancelStagedBuild
call; any other provision failure also exits with the error code. -/
theorem createNewStagingBuild_locked_cancel_then_fatal (cfg : Config)
    (s : ManagerState) :
    (createNewStagingBuild cfg s
        ProvisionResult.errProjectLocked).1.exited =
      some EXIT_CODES_ERROR ∧
    (createNewStagingBuild cfg s ProvisionResult.errProjectLocked).2 =
      [ClientCall.provisionBuild cfg.targetAccountId cfg.projectName,
       ClientCall.cancelStagedBuild cfg.targetAccountId
         cfg.projectName] ∧
    countProvisionCalls
      (createNewStagingBuild cfg s
        ProvisionResult.errProjectLocked).2 = 1 ∧
    (createNewStagingBuild cfg s ProvisionResult.errOther).1.exited =
      some EXIT_CODES_ERROR :=
  ⟨rfl, rfl, rfl, rfl⟩

/-- C3: evaluating sendChanges at the failing input — an add event
whose uploadFileToBuild call returns a later-rejecting promise.
Because the source returns the un-awaited promise from inside the
try/catch, the asynchronous rejection escapes the catch and rejects
the upload-queue task promise, while only a synchronous throw is
caught and logged: the per-file failure is propagated, contrary to the
intent evidenced by the catch-and-log block. -/
theorem sendChanges_async_rejection_escapes :
    (sendChanges sampleConfig sampleUpload CallOutcome.asyncReject).2 =
      TaskResult.rejected ∧
    (sendChanges sampleConfig sampleUpload CallOutcome.syncThrow).2 =
      TaskResult.resolved := ⟨rfl, rfl⟩

/-- C4 counterexample: flushing a buffer whose single entry has
supported = true submits a task for that entry: supported entries are
not skipped during flush. -/
theorem flush_submits_supported_entry :
    (flushStandbyChanges bufferWithSupported).2 = [supportedEntry] ∧
    supportedEntry.supported = true := ⟨rfl, rfl⟩

/-- C4 amended: flushStandbyChanges takes the full buffered list in
arrival order, clears the buffer, and submits one upload-queue task
per entry, including entries whose supported flag is true (no entry is
skipped); with an empty buffer it is a no-op. -/
theorem flushStandbyChanges_takes_all_in_order (s : ManagerState) :
    (s.standbyChanges = [] → flushStandbyChanges s = (s, [])) ∧
    (s.standbyChanges ≠ [] →
        (flushStandbyChanges s).2 = s.standbyChanges ∧
        (flushStandbyChanges s).1 = { s with standbyChanges := [] }) := by
  constructor
  · intro hemp
    simp [flushStandbyChanges, hemp]
  · intro hne
    have hf : s.standbyChanges.isEmpty = false := by simpa using hne
    simp [flushStandbyChanges, hf]

/-- C4 amended witness: flushing the empty initial buffer is a no-op. -/
theorem flushStandbyChanges_takes_all_in_order_witness :
    flushStandbyChanges initialState = (initialState, []) :=
  (flushStandbyChanges_takes_all_in_order initialState).1 rfl

/-- C7 counterexample: with the upload queue running, an add event for
x.bad whose extension is disallowed by the allow-list is nevertheless
submitted to the upload queue: the extension check is only performed
on the standby-buffer path. -/
theorem disallowed_extension_add_still_queued :
    noExtAllowedConfig.isAllowedExtension "x.bad" = false ∧
    initialState.uploadQueuePaused = false ∧
    (handleWatchEvent noExtAllowedConfig 0 initialState "x.bad"
        WatchEvent.add).queued =
      [{ event := WatchEvent.add, filePath := "x.bad"
         remotePath := "x.bad" }] := by
  refine ⟨rfl, rfl, ?_⟩
  rw [handleWatchEvent_running noExtAllowedConfig 0 initialState "x.bad"
    WatchEvent.add rfl rfl]
  rfl

/-- C7 amended: for an add event with a disallowed extension (uploads
not prevented): when the queue is paused the change is dropped before
buffering — the standby buffer is unchanged and nothing is queued —
but when the queue is running the extension check is not applied and
the event is submitted to the upload queue as the final task. -/
theorem disallowed_extension_add_dispatch (cfg : Config) (now : Nat)
    (s : ManagerState) (fp : String)
    (hprev : cfg.preventUploads = false)
    (hext : cfg.isAllowedExtension fp = false) :
    (s.uploadQueuePaused = true →
        (handleWatchEvent cfg now s fp
            WatchEvent.add).state.standbyChanges = s.standbyChanges ∧
        (handleWatchEvent cfg now s fp WatchEvent.add).queued = []) ∧
    (s.uploadQueuePaused = false →
        (handleWatchEvent cfg now s fp WatchEvent.add).queued =
          (flushStandbyChanges s).2.map StandbyChange.toChangeInfo ++
            [{ event := WatchEvent.add, filePath := fp
               remotePath := cfg.relativePath fp }]) := by
  constructor
  · intro hpause
    by_cases hdup : (s.standbyChanges.any fun c => c.filePath == fp) = true
    · rw [handleWatchEvent_paused_dup cfg now s fp WatchEvent.add hprev
        hpause hdup]
      exact ⟨rfl, rfl⟩
    · rw [Bool.not_eq_true] at hdup
      rw [handleWatchEvent_paused_new cfg now s fp WatchEvent.add hprev
        hpause hdup]
      refine ⟨?_, rfl⟩
      simp [addChangeToStandbyQueue, hext]
  · intro hpause
    rw [handleWatchEvent_running cfg now s fp WatchEvent.add hprev hpause]

/-- C7 amended witness: the paused case at a concrete state — the
buffer is unchanged and nothing is queued for the disallowed x.bad. -/
theorem disallowed_extension_add_dispatch_witness :
    (handleWatchEvent noExtAllowedConfig 0 bufferWithSupported "x.bad"
        WatchEvent.add).queued = [] :=
  ((disallowed_extension_add_dispatch noExtAllowedConfig 0
      bufferWithSupported "x.bad" rfl rfl).1 rfl).2

end LocalDev
